import Mathlib

/-!
Shallow embedding of the HalphaImaging repository (src/python3/getzp.py and
src/python3/plot_cutouts_ha.py) for checking the natural-language
specification against the code.

Numeric values (numpy float arrays, magnitudes) are modelled as rationals;
machine floating point is abstracted to exact arithmetic.  External library
routines (scipy.optimize.curve_fit, astropy sky matching, the network and
file system) are modelled by explicit deterministic functions or by
environment parameters, as noted at each definition.
-/

namespace HalphaImaging

/-! ## Part 1: the iterative sigma-clipped zero-point fit (getzp.fitzp) -/

/-- One matched calibration star fed to the fit loop of `getzp.fitzp`:
`x` is the expected Pan-STARRS magnitude (`self.R[flag]`), `y` the Source
Extractor magnitude, `yerr` its error. -/
structure Point where
  x : ℚ
  y : ℚ
  yerr : ℚ
deriving DecidableEq, Repr

/-- Fields stored on the `getzp` object when the fit loop aborts via
`sys.exit()` (getzp.py lines 383-388): the current data arrays and the
best-fit coefficients `self.bestc`. -/
structure ExitInfo where
  x : List ℚ
  y : List ℚ
  residual : List ℚ
  bestc : ℚ × ℚ
deriving DecidableEq, Repr

/-- Fields stored on the `getzp` object when the fit loop finishes normally
(getzp.py lines 427-432): the filtered data arrays, the last residual array
(line 392), the coefficients `self.bestc` and `self.zp = self.bestc[1]`. -/
structure FitOut where
  x : List ℚ
  y : List ℚ
  yerr : List ℚ
  residual : List ℚ
  bestc : ℚ × ℚ
  zp : ℚ
deriving DecidableEq, Repr

/-- Outcome of the `while` loop in `getzp.fitzp`.  `outOfFuel` is an
artifact of the fuel-indexed recursion; the termination theorem shows the
loop never produces it when given fuel `length + 2`. -/
inductive FitResult where
  | ok (o : FitOut)
  | exited (e : ExitInfo)
  | outOfFuel
deriving DecidableEq, Repr

/-- Insert a rational into a sorted list (helper for `sortQ`). -/
def insSorted (q : ℚ) : List ℚ → List ℚ
  | [] => [q]
  | a :: as => if q ≤ a then q :: a :: as else a :: insSorted q as

/-- Insertion sort on rationals (models numpy's ascending sort inside
`np.median`). -/
def sortQ : List ℚ → List ℚ
  | [] => []
  | a :: as => insSorted a (sortQ as)

/-- Model of `np.median`: sort; middle element for odd length, mean of the two middle
elements for even length.  (numpy returns nan on an empty array; the empty
case is mapped to 0, and is irrelevant because the loop aborts as soon as
fewer than 2 points remain.) -/
def median (l : List ℚ) : ℚ :=
  let s := sortQ l
  let n := s.length
  if n = 0 then 0
  else if n % 2 = 1 then s.getD (n / 2) 0
  else (s.getD (n / 2 - 1) 0 + s.getD (n / 2) 0) / 2

/-- Model of `scipy.optimize.curve_fit(zpfunc, x, y, sigma=yerr)` for the fixed-slope
model `zpfunc = lambda x, zp: x + zp` (getzp.py line 70), modelled by its
closed-form weighted-least-squares solution: the weighted mean of `y - x`
with weights `1 / yerr^2`.  The only property of the library routine used by
the theorems is that it is a deterministic function of the data. -/
def curveFitZp (ps : List Point) : ℚ :=
  let wsum := (ps.map fun p => 1 / (p.yerr * p.yerr)).sum
  let wres := (ps.map fun p => (p.y - p.x) / (p.yerr * p.yerr)).sum
  wres / wsum

/-- Residual of one point for intercept `zp`: `yfit - y` with
`yfit = np.polyval([1, zp], x) = x + zp` (getzp.py lines 370-371). -/
def residOf (zp : ℚ) (p : Point) : ℚ := (p.x + zp) - p.y

/-- The boolean clipping mask of one loop iteration (getzp.py lines 381-382):
`MAD = 1.48*np.median(abs(residual - np.median(residual)))`,
`flag = (abs(residual - np.median(residual)) < self.nsigma*MAD)`. -/
def clipFlags (nsigma zp : ℚ) (ps : List Point) : List Bool :=
  let residual := ps.map (residOf zp)
  let med := median residual
  let mad := 148 / 100 * median (residual.map fun r => |r - med|)
  residual.map fun r => decide (|r - med| < nsigma * mad)

/-- numpy boolean-mask indexing `a[flag]`. -/
def boolIndex {α : Type} : List α → List Bool → List α
  | a :: as, b :: bs => if b then a :: boolIndex as bs else boolIndex as bs
  | _, _ => []

/-- Model of `sum(flag)` for a boolean numpy array: the number of `True` entries. -/
def countTrue : List Bool → Nat
  | [] => 0
  | b :: bs => (if b then 1 else 0) + countTrue bs

/-- The data retained for the next iteration of the fit loop
(getzp.py lines 393-395: `x = x[flag]; y = y[flag]; yerr = yerr[flag]`). -/
def keptOf (nsigma zp : ℚ) (ps : List Point) : List Point :=
  boolIndex ps (clipFlags nsigma zp ps)

/-- The `while delta > 1.e-3` loop of `getzp.fitzp` (getzp.py lines 364-395),
as a fuel-indexed recursion.  Each iteration: fit the fixed-slope model,
compute `delta` against the previous intercept, update `bestc`, compute the
MAD clipping mask, abort via `sys.exit` when fewer than 2 points survive,
otherwise filter the arrays; the loop continues only while `delta > 1e-3`. -/
def fitzpLoop (nsigma : ℚ) : Nat → ℚ × ℚ → List Point → FitResult
  | 0, _, _ => .outOfFuel
  | fuel + 1, bestc, ps =>
    if countTrue (clipFlags nsigma (curveFitZp ps) ps) < 2 then
      .exited
        { x := ps.map Point.x
          y := ps.map Point.y
          residual := ps.map (residOf (curveFitZp ps))
          bestc := (1, curveFitZp ps) }
    else if |bestc.2 - curveFitZp ps| ≤ 1 / 1000 then
      .ok
        { x := (keptOf nsigma (curveFitZp ps) ps).map Point.x
          y := (keptOf nsigma (curveFitZp ps) ps).map Point.y
          yerr := (keptOf nsigma (curveFitZp ps) ps).map Point.yerr
          residual := ps.map (residOf (curveFitZp ps))
          bestc := (1, curveFitZp ps)
          zp := curveFitZp ps }
    else
      fitzpLoop nsigma fuel (1, curveFitZp ps) (keptOf nsigma (curveFitZp ps) ps)

/-- Fuel sufficient for the loop, established by the termination theorem. -/
def fitzpFuel (ps : List Point) : Nat := ps.length + 2

/-- Entry point of the fit loop: `self.bestc = np.array([0,0],'f')` and
`delta = 100.` (getzp.py lines 347-348), so the loop body always runs at
least once. -/
def fitzp (nsigma : ℚ) (ps : List Point) : FitResult :=
  fitzpLoop nsigma (fitzpFuel ps) (0, 0) ps

/-! ### Basic lemmas about masking -/

theorem boolIndex_length_le {α : Type} :
    ∀ (ps : List α) (bs : List Bool), (boolIndex ps bs).length ≤ ps.length := by
  intro ps
  induction ps with
  | nil => intro bs; cases bs <;> simp [boolIndex]
  | cons a as ih =>
    intro bs
    cases bs with
    | nil => simp [boolIndex]
    | cons b bs =>
      cases b with
      | true => simpa [boolIndex] using Nat.succ_le_succ (ih bs)
      | false => simpa [boolIndex] using Nat.le_succ_of_le (ih bs)

theorem boolIndex_map_eq_filter {α : Type} (q : α → Bool) :
    ∀ (ps : List α), boolIndex ps (ps.map q) = ps.filter q := by
  intro ps
  induction ps with
  | nil => simp [boolIndex]
  | cons a as ih =>
    cases hq : q a with
    | true => simp [boolIndex, List.filter_cons, hq, ih]
    | false => simp [boolIndex, List.filter_cons, hq, ih]

theorem countTrue_map_eq_length_filter {α : Type} (q : α → Bool) :
    ∀ (ps : List α), countTrue (ps.map q) = (ps.filter q).length := by
  intro ps
  induction ps with
  | nil => simp [countTrue]
  | cons a as ih =>
    cases hq : q a with
    | true =>
      simp [countTrue, List.filter_cons, hq, ih]
      omega
    | false => simp [countTrue, List.filter_cons, hq, ih]

theorem filter_length_eq_imp_eq {α : Type} (q : α → Bool) :
    ∀ (ps : List α), (ps.filter q).length = ps.length → ps.filter q = ps := by
  intro ps
  induction ps with
  | nil => intro _; rfl
  | cons a as ih =>
    intro h
    rw [List.filter_cons] at h ⊢
    by_cases hq : q a = true
    · rw [if_pos hq] at h ⊢
      have h2 : (as.filter q).length = as.length := by simpa using h
      rw [ih h2]
    · exfalso
      rw [if_neg hq] at h
      have hle := List.length_filter_le q as
      simp only [List.length_cons] at h
      omega

/-- The clipping mask has the same length as the data. -/
theorem clipFlags_length (nsigma zp : ℚ) (ps : List Point) :
    (clipFlags nsigma zp ps).length = ps.length := by
  simp [clipFlags]

/-- The clipping mask is a pointwise map of the data. -/
theorem clipFlags_eq_map (nsigma zp : ℚ) (ps : List Point) :
    clipFlags nsigma zp ps =
      ps.map fun p =>
        decide (|residOf zp p - median (ps.map (residOf zp))| <
          nsigma * (148 / 100 *
            median ((ps.map (residOf zp)).map
              fun r => |r - median (ps.map (residOf zp))|))) := by
  simp [clipFlags, List.map_map]

theorem keptOf_eq_filter (nsigma zp : ℚ) (ps : List Point) :
    keptOf nsigma zp ps =
      ps.filter fun p =>
        decide (|residOf zp p - median (ps.map (residOf zp))| <
          nsigma * (148 / 100 *
            median ((ps.map (residOf zp)).map
              fun r => |r - median (ps.map (residOf zp))|))) := by
  rw [keptOf, clipFlags_eq_map, boolIndex_map_eq_filter]

theorem keptOf_length_le (nsigma zp : ℚ) (ps : List Point) :
    (keptOf nsigma zp ps).length ≤ ps.length :=
  boolIndex_length_le ps (clipFlags nsigma zp ps)

theorem countTrue_clipFlags (nsigma zp : ℚ) (ps : List Point) :
    countTrue (clipFlags nsigma zp ps) = (keptOf nsigma zp ps).length := by
  rw [keptOf_eq_filter, clipFlags_eq_map, countTrue_map_eq_length_filter]

theorem keptOf_length_eq_imp_eq (nsigma zp : ℚ) (ps : List Point)
    (h : (keptOf nsigma zp ps).length = ps.length) :
    keptOf nsigma zp ps = ps := by
  rw [keptOf_eq_filter] at h ⊢
  exact filter_length_eq_imp_eq _ ps h

/-! ### Termination of the fit loop -/

/-- If the previous intercept was obtained on exactly the current data (the
clipping step removed nothing), one more unit of fuel finishes the loop:
the refit returns the same intercept, so `delta = 0 ≤ 1e-3`. -/
theorem fitzpLoop_step_self (nsigma : ℚ) (fuel : Nat) (ps : List Point) :
    fitzpLoop nsigma (fuel + 1) (1, curveFitZp ps) ps ≠ FitResult.outOfFuel := by
  intro h
  simp only [fitzpLoop] at h
  by_cases h1 : countTrue (clipFlags nsigma (curveFitZp ps) ps) < 2
  · rw [if_pos h1] at h
    exact FitResult.noConfusion h
  · rw [if_neg h1, if_pos (by norm_num)] at h
    exact FitResult.noConfusion h

/-- Core termination argument for the `while` loop of `getzp.fitzp`: every
iteration either aborts, converges, or strictly shrinks the data (if the
clipping mask keeps every point, the refit on the same data converges in the
next iteration), so fuel `length + 2` is never exhausted. -/
theorem fitzpLoop_no_outOfFuel (nsigma : ℚ) :
    ∀ (n : Nat) (ps : List Point), ps.length ≤ n → ∀ (bestc : ℚ × ℚ) (fuel : Nat),
      ps.length + 2 ≤ fuel → fitzpLoop nsigma fuel bestc ps ≠ FitResult.outOfFuel := by
  intro n
  induction n with
  | zero =>
    intro ps hps bestc fuel hfuel
    have hps0 : ps = [] := List.length_eq_zero.mp (Nat.le_zero.mp hps)
    subst hps0
    obtain ⟨f, rfl⟩ : ∃ f, fuel = f + 1 := ⟨fuel - 1, by omega⟩
    intro h
    simp only [fitzpLoop] at h
    rw [if_pos (by norm_num [clipFlags, countTrue])] at h
    exact FitResult.noConfusion h
  | succ n ih =>
    intro ps hps bestc fuel hfuel
    obtain ⟨f, rfl⟩ : ∃ f, fuel = f + 1 := ⟨fuel - 1, by omega⟩
    intro h
    simp only [fitzpLoop] at h
    by_cases h1 : countTrue (clipFlags nsigma (curveFitZp ps) ps) < 2
    · rw [if_pos h1] at h
      exact FitResult.noConfusion h
    · rw [if_neg h1] at h
      by_cases h2 : |bestc.2 - curveFitZp ps| ≤ 1 / 1000
      · rw [if_pos h2] at h
        exact FitResult.noConfusion h
      · rw [if_neg h2] at h
        rcases Nat.lt_or_ge (keptOf nsigma (curveFitZp ps) ps).length ps.length with
          hlt | hge
        · exact ih (keptOf nsigma (curveFitZp ps) ps) (by omega)
            (1, curveFitZp ps) f (by omega) h
        · have heq : (keptOf nsigma (curveFitZp ps) ps).length = ps.length :=
            le_antisymm (keptOf_length_le nsigma (curveFitZp ps) ps) hge
          rw [keptOf_length_eq_imp_eq nsigma (curveFitZp ps) ps heq] at h
          obtain ⟨g, rfl⟩ : ∃ g, f = g + 1 := ⟨f - 1, by omega⟩
          exact fitzpLoop_step_self nsigma g ps h

/-- First component of `self.bestc` at the end of the run, when defined. -/
def slopeOf : FitResult → Option ℚ
  | .ok o => some o.bestc.1
  | .exited e => some e.bestc.1
  | .outOfFuel => none

/-- Model of `self.zp` (getzp.py line 432), defined only on a normal return. -/
def zpFieldOf : FitResult → Option ℚ
  | .ok o => some o.zp
  | _ => none

/-- Model of `self.bestc[1]`, the fitted intercept, on a normal return. -/
def interceptOf : FitResult → Option ℚ
  | .ok o => some o.bestc.2
  | _ => none

/-- Every result the loop can produce carries `bestc` with slope component 1,
and on a normal return `self.zp` equals the intercept `self.bestc[1]`. -/
theorem fitzpLoop_slope (nsigma : ℚ) :
    ∀ (fuel : Nat) (bestc : ℚ × ℚ) (ps : List Point),
      fitzpLoop nsigma fuel bestc ps ≠ FitResult.outOfFuel →
      slopeOf (fitzpLoop nsigma fuel bestc ps) = some 1 ∧
        zpFieldOf (fitzpLoop nsigma fuel bestc ps) =
          interceptOf (fitzpLoop nsigma fuel bestc ps) := by
  intro fuel
  induction fuel with
  | zero =>
    intro bestc ps h
    exact absurd rfl h
  | succ f ih =>
    intro bestc ps h
    simp only [fitzpLoop] at h ⊢
    by_cases h1 : countTrue (clipFlags nsigma (curveFitZp ps) ps) < 2
    · rw [if_pos h1]
      exact ⟨rfl, rfl⟩
    · rw [if_neg h1] at h ⊢
      by_cases h2 : |bestc.2 - curveFitZp ps| ≤ 1 / 1000
      · rw [if_pos h2]
        exact ⟨rfl, rfl⟩
      · rw [if_neg h2] at h ⊢
        exact ih (1, curveFitZp ps) (keptOf nsigma (curveFitZp ps) ps) h

/-- C1. The iterative sigma-clipped zero-point fit in `getzp.fitzp` is a
bounded loop: on every input dataset the `while` loop that alternates
`curve_fit` and MAD outlier rejection finishes (normally or via `sys.exit`)
within `length + 2` iterations — with that much fuel it never runs out. -/
theorem fitzp_terminates (nsigma : ℚ) (ps : List Point) :
    fitzp nsigma ps ≠ FitResult.outOfFuel :=
  fitzpLoop_no_outOfFuel nsigma ps.length ps le_rfl (0, 0) (fitzpFuel ps) le_rfl

/-- Witness for C1 at a concrete dataset: the loop finishes on the two-star
input. -/
theorem fitzp_terminates_witness :
    fitzp 2 [⟨10, 12, 1⟩, ⟨11, 13, 1⟩] ≠ FitResult.outOfFuel :=
  fitzp_terminates 2 [⟨10, 12, 1⟩, ⟨11, 13, 1⟩]

/-- C2. In every iteration of the fit loop, outlier rejection is exactly MAD
clipping: with `residual = yfit - y`, `MAD = 1.48 * median(|residual -
median(residual)|)`, precisely the points with `|residual -
median(residual)| < nsigma * MAD` are retained for the next iteration. -/
theorem clip_retains_iff (nsigma zp : ℚ) (ps : List Point) (p : Point) :
    p ∈ keptOf nsigma zp ps ↔
      p ∈ ps ∧
        |residOf zp p - median (ps.map (residOf zp))| <
          nsigma * (148 / 100 * median ((ps.map (residOf zp)).map
            fun r => |r - median (ps.map (residOf zp))|)) := by
  rw [keptOf_eq_filter]
  simp [List.mem_filter]

/-- C6. The zero-point is purely additive: the coefficient vector `bestc`
after every iteration has slope component exactly 1 (the model fitted is
`y = x + zp` with fixed slope), and the final stored `self.zp` is the
additive intercept `bestc[1]` alone. -/
theorem fitzp_slope_fixed (nsigma : ℚ) (ps : List Point) :
    slopeOf (fitzp nsigma ps) = some 1 ∧
      zpFieldOf (fitzp nsigma ps) = interceptOf (fitzp nsigma ps) :=
  fitzpLoop_slope nsigma (fitzpFuel ps) (0, 0) ps
    (fitzpLoop_no_outOfFuel nsigma ps.length ps le_rfl (0, 0) (fitzpFuel ps) le_rfl)

/-- C9. If at any iteration the MAD clipping step retains fewer than 2
points (`sum(flag) < 2`), the loop stores the current `x`, `y` and
`residual` arrays on the object and aborts via `sys.exit` instead of
returning a fitted zero-point. -/
theorem fitzp_underflow_exits (nsigma : ℚ) (bestc : ℚ × ℚ) (ps : List Point)
    (fuel : Nat)
    (h : countTrue (clipFlags nsigma (curveFitZp ps) ps) < 2) :
    fitzpLoop nsigma (fuel + 1) bestc ps =
      FitResult.exited
        { x := ps.map Point.x
          y := ps.map Point.y
          residual := ps.map (residOf (curveFitZp ps))
          bestc := (1, curveFitZp ps) } := by
  simp only [fitzpLoop]
  rw [if_pos h]

/-- Concrete dataset on which the fit is exact, so all residuals vanish,
`MAD = 0`, the clipping mask rejects every point, and the loop aborts. -/
def psExitW : List Point := [⟨10, 12, 1⟩, ⟨11, 13, 1⟩]

/-- Witness for C9 at a concrete input: two perfectly fitting stars make the
clipping mask empty and the first iteration aborts via `sys.exit` with the
current arrays stored. -/
theorem fitzp_underflow_exits_witness :
    countTrue (clipFlags 2 (curveFitZp psExitW) psExitW) < 2 ∧
      fitzpLoop 2 4 (0, 0) psExitW =
        FitResult.exited
          { x := [10, 11], y := [12, 13], residual := [0, 0], bestc := (1, 2) } := by
  refine ⟨?_, ?_⟩
  · norm_num [psExitW, curveFitZp, clipFlags, residOf, median, sortQ, insSorted,
      countTrue]
  · have h := fitzp_underflow_exits 2 (0, 0) psExitW 3
      (by norm_num [psExitW, curveFitZp, clipFlags, residOf, median, sortQ,
        insSorted, countTrue])
    rw [h]
    norm_num [psExitW, curveFitZp, residOf, median, sortQ, insSorted]

/-! ## Part 2: catalog cross-matching (getzp.match_coords) -/

/-- One row of the Source Extractor catalog (`self.secat`), with the fields
getzp.py reads.  `magAper`/`magErrAper` model the fixed-aperture subarray
columns `MAG_APER`/`MAGERR_APER`. -/
structure SERow where
  alphaJ2000 : ℚ
  deltaJ2000 : ℚ
  flagsSE : ℚ
  classStar : ℚ
  xImage : ℚ
  yImage : ℚ
  magAuto : ℚ
  magErrAuto : ℚ
  magAper : List ℚ
  magErrAper : List ℚ
  magBest : ℚ
  magErrBest : ℚ
  magPetro : ℚ
  magErrPetro : ℚ
deriving DecidableEq, Repr

/-- One row of the Pan-STARRS reference catalog (`self.pan`). -/
structure PanRow where
  raJ2000 : ℚ
  deJ2000 : ℚ
  gmag : ℚ
  rmag : ℚ
  imag : ℚ
  qual : ℚ
deriving DecidableEq, Repr

/-- Model of `np.zeros(len(pancoords), dtype=self.secat.dtype)` produces records whose
scalar fields are 0 and whose aperture subarrays are zero-filled; `napers` is
the subarray length fixed by the Source Extractor configuration. -/
def zeroSERow (napers : Nat) : SERow :=
  { alphaJ2000 := 0, deltaJ2000 := 0, flagsSE := 0, classStar := 0
    xImage := 0, yImage := 0, magAuto := 0, magErrAuto := 0
    magAper := List.replicate napers 0, magErrAper := List.replicate napers 0
    magBest := 0, magErrBest := 0, magPetro := 0, magErrPetro := 0 }

/-- A record is all-zero: every scalar field is 0 and every aperture entry
is 0. -/
def isZeroRow (r : SERow) : Bool :=
  r.alphaJ2000 == 0 && r.deltaJ2000 == 0 && r.flagsSE == 0 && r.classStar == 0 &&
  r.xImage == 0 && r.yImage == 0 && r.magAuto == 0 && r.magErrAuto == 0 &&
  r.magAper.all (fun q => q == 0) && r.magErrAper.all (fun q => q == 0) &&
  r.magBest == 0 && r.magErrBest == 0 && r.magPetro == 0 && r.magErrPetro == 0

/-- Model of `self.matchflag = dist2d.degree < 5./3600` (getzp.py line 234), from the
per-Pan-STARRS-row nearest-neighbour result `idxDist` (index into the SE
catalog and distance in degrees) returned by the external
`match_to_catalog_sky`. -/
def matchflagOf (idxDist : List (Nat × ℚ)) : List Bool :=
  idxDist.map fun jd => decide (jd.2 < 5 / 3600)

/-- Model of `self.matchedarray1`: a zero array of length `len(pan)` whose matched
positions are overwritten with the corresponding SE rows
(getzp.py lines 237-238). -/
def matchedRows (secat : List SERow) (napers : Nat)
    (idxDist : List (Nat × ℚ)) : List SERow :=
  idxDist.map fun jd =>
    if jd.2 < 5 / 3600 then secat.getD jd.1 (zeroSERow napers)
    else zeroSERow napers

/-- The central-region cut applied for the INT WFC
(`self.keepsection = [1000, 5000, 0, 4000]`, getzp.py lines 145 and 250-255). -/
def goodareaOf (r : SERow) : Bool :=
  decide (r.xImage > 1000) && decide (r.xImage < 5000) &&
  decide (r.yImage > 0) && decide (r.yImage < 4000)

/-- Model of `self.fitflag` (getzp.py lines 246-255): matched, `pan rmag > 9`,
`FLAGS < 5`, `Qual < 64`, `CLASS_STAR > 0.95`, and for instrument `'i'`
additionally inside the kept section. -/
def fitflagOf (instrument : String) (pan : List PanRow) (m1 : List SERow)
    (mflag : List Bool) : List Bool :=
  (mflag.zip (pan.zip m1)).map fun t =>
    t.1 && decide (t.2.1.rmag > 9) && decide (t.2.2.flagsSE < 5) &&
      decide (t.2.1.qual < 64) && decide (t.2.2.classStar > 0.95) &&
      (if instrument = "i" then goodareaOf t.2.2 else true)

/-- Model of `self.R` (getzp.py lines 257-277): for filter `'R'` the Pan-STARRS r
magnitude transformed to Johnson R (the line-262 value is always overwritten
by lines 271-274), otherwise the Pan-STARRS r magnitude itself. -/
def rExpectedOf (fltr : String) (useri : Bool) (pan : List PanRow) : List ℚ :=
  if fltr = "R" then
    if useri then
      pan.map fun p => p.rmag + (-166 / 1000) * (p.rmag - p.imag) - 275 / 1000
    else
      pan.map fun p => p.rmag + (-142 / 1000) * (p.gmag - p.rmag) - 142 / 1000
  else
    pan.map PanRow.rmag

/-- The arrays produced by `getzp.match_coords`. -/
structure MatchOut where
  matchflag : List Bool
  matchedarray1 : List SERow
  fitflag : List Bool
  rExpected : List ℚ
deriving DecidableEq, Repr

/-- Model of `getzp.match_coords` (getzp.py lines 222-277): match flag, matched SE
array, fit flag and the expected reference magnitudes `self.R`. -/
def match_coords (instrument fltr : String) (useri : Bool) (napers : Nat)
    (pan : List PanRow) (secat : List SERow)
    (idxDist : List (Nat × ℚ)) : MatchOut :=
  { matchflag := matchflagOf idxDist
    matchedarray1 := matchedRows secat napers idxDist
    fitflag := fitflagOf instrument pan (matchedRows secat napers idxDist)
      (matchflagOf idxDist)
    rExpected := rExpectedOf fltr useri pan }

theorem isZeroRow_zeroSERow (napers : Nat) : isZeroRow (zeroSERow napers) = true := by
  simp [isZeroRow, zeroSERow, List.all_eq_true]

/-- C7. Array-length alignment after `getzp.match_coords`: `matchflag`,
`fitflag` and `matchedarray1` all have length `len(self.pan)` (given the
astropy contract that the nearest-neighbour result has one entry per
Pan-STARRS row), and every position whose `matchflag` is `False` holds an
all-zero record in `matchedarray1`. -/
theorem match_coords_alignment (instrument fltr : String) (useri : Bool)
    (napers : Nat) (pan : List PanRow) (secat : List SERow)
    (idxDist : List (Nat × ℚ)) (hlen : idxDist.length = pan.length) :
    (match_coords instrument fltr useri napers pan secat idxDist).matchflag.length
        = pan.length ∧
      (match_coords instrument fltr useri napers pan secat idxDist).fitflag.length
        = pan.length ∧
      (match_coords instrument fltr useri napers pan secat
        idxDist).matchedarray1.length = pan.length ∧
      ∀ i, i < pan.length →
        (match_coords instrument fltr useri napers pan secat
          idxDist).matchflag.getD i false = false →
        isZeroRow ((match_coords instrument fltr useri napers pan secat
          idxDist).matchedarray1.getD i (zeroSERow napers)) = true := by
  refine ⟨?_, ?_, ?_, ?_⟩
  · simp [match_coords, matchflagOf, hlen]
  · simp [match_coords, fitflagOf, matchedRows, matchflagOf, hlen]
  · simp [match_coords, matchedRows, hlen]
  · intro i hi hflag
    simp only [match_coords, matchflagOf, matchedRows] at hflag ⊢
    have hi2 : i < idxDist.length := by omega
    rw [List.getD_eq_getElem?_getD, List.getElem?_map,
      List.getElem?_eq_getElem hi2] at hflag ⊢
    simp only [Option.map_some', Option.getD_some] at hflag ⊢
    rw [decide_eq_false_iff_not] at hflag
    rw [if_neg hflag]
    exact isZeroRow_zeroSERow napers

/-- Concrete two-row Pan-STARRS catalog for the C7 witness. -/
def panW : List PanRow :=
  [⟨10, 10, 10, 10, 10, 0⟩, ⟨11, 10, 11, 11, 11, 0⟩]

/-- Concrete one-row SE catalog for the C7 witness. -/
def secatW : List SERow :=
  [⟨10, 10, 0, 1, 0, 0, 12, 1 / 10, [12], [1], 12, 1 / 10, 12, 1 / 10⟩]

/-- Concrete nearest-neighbour result for the C7 witness: the first
Pan-STARRS row matches nothing (distance 1 degree), the second matches the
SE row within 5 arcsec. -/
def idxDistW : List (Nat × ℚ) := [(0, 1), (0, 1 / 7200)]

/-- Witness for C7 at concrete catalogs. -/
theorem match_coords_alignment_witness :
    idxDistW.length = panW.length ∧
      ((match_coords "h" "r" false 1 panW secatW idxDistW).matchflag.length
          = panW.length ∧
        (match_coords "h" "r" false 1 panW secatW idxDistW).fitflag.length
          = panW.length ∧
        (match_coords "h" "r" false 1 panW secatW
          idxDistW).matchedarray1.length = panW.length ∧
        ∀ i, i < panW.length →
          (match_coords "h" "r" false 1 panW secatW
            idxDistW).matchflag.getD i false = false →
          isZeroRow ((match_coords "h" "r" false 1 panW secatW
            idxDistW).matchedarray1.getD i (zeroSERow 1)) = true) :=
  ⟨rfl, match_coords_alignment "h" "r" false 1 panW secatW idxDistW rfl⟩

/-! ## Part 3: writing the zero-point into the image header
(getzp.update_header) -/

/-- A FITS header card value: numeric or string. -/
inductive HVal where
  | num (q : ℚ)
  | str (s : String)
deriving DecidableEq, Repr

/-- A FITS header: an ordered list of keyword-value cards. -/
abbrev Header := List (String × HVal)

/-- Model of `astropy.io.fits.Header.set`: update the first card with the given
keyword in place, or append a new card at the end. -/
def headerSet : Header → String → HVal → Header
  | [], k, v => [(k, v)]
  | (k0, v0) :: rest, k, v =>
    if k0 = k then (k, v) :: rest else (k0, v0) :: headerSet rest k v

/-- Keyword lookup in a header (first card wins, as in astropy). -/
def headerGet : Header → String → Option HVal
  | [], _ => none
  | (k0, v0) :: rest, k => if k0 = k then some v0 else headerGet rest k

/-- Model of `float('{:.3f}'.format(q))`: rounding to 3 decimal places (the binary
floating-point formatting of Python is modelled as exact decimal rounding). -/
def round3 (q : ℚ) : ℚ := (round (q * 1000) : ℤ) / 1000

/-- A FITS image file: pixel data plus header. -/
structure FitsFile where
  data : List (List ℚ)
  hdr : Header
deriving DecidableEq, Repr

/-- Model of `getzp.update_header` (getzp.py lines 435-453): read the image, set
`PHOTZP` to `-1 * bestc[1]` (plus the Vega-to-AB offset 0.21 and a
`LAMB(um)` card when filter is `'R'`), set `PHOTSYS` and `FLUXZPJY`, and
write the same pixel data back with the updated header. -/
def update_header (fltr : String) (bestc : ℚ × ℚ) (f : FitsFile) : FitsFile :=
  let h1 :=
    if fltr = "R" then
      headerSet (headerSet f.hdr "PHOTZP" (HVal.num (round3 (-1 * bestc.2 + 21 / 100))))
        "LAMB(um)" (HVal.num (6442 / 10000))
    else
      headerSet f.hdr "PHOTZP" (HVal.num (round3 (-1 * bestc.2)))
  let h2 := headerSet h1 "PHOTSYS" (HVal.str "AB")
  let h3 := headerSet h2 "FLUXZPJY" (HVal.num 3631)
  { data := f.data, hdr := h3 }

theorem headerGet_headerSet_self (h : Header) (k : String) (v : HVal) :
    headerGet (headerSet h k v) k = some v := by
  induction h with
  | nil => simp [headerSet, headerGet]
  | cons c rest ih =>
    by_cases hk : c.1 = k
    · simp [headerSet, headerGet, hk]
    · simp [headerSet, headerGet, hk, ih]

theorem headerGet_headerSet_ne (h : Header) (k k2 : String) (v : HVal)
    (hne : k2 ≠ k) : headerGet (headerSet h k v) k2 = headerGet h k2 := by
  induction h with
  | nil => simp [headerSet, headerGet, hne, Ne.symm hne]
  | cons c rest ih =>
    by_cases hk : c.1 = k
    · simp [headerSet, headerGet, hk, Ne.symm hne, hne]
    · by_cases hk2 : c.1 = k2
      · simp [headerSet, headerGet, hk, hk2, hne]
      · simp [headerSet, headerGet, hk, hk2, ih]

/-- C4. `getzp.update_header` mutates only the header: the pixel data
written back is the data read, `PHOTZP` holds the negated fitted intercept
rounded to 3 decimals (with 0.21 added first when the filter is `'R'`), and
any keyword other than the four it sets (`PHOTZP`, `LAMB(um)`, `PHOTSYS`,
`FLUXZPJY`) is left exactly as it was. -/
theorem update_header_frame (fltr : String) (bestc : ℚ × ℚ) (f : FitsFile) :
    (update_header fltr bestc f).data = f.data ∧
      headerGet (update_header fltr bestc f).hdr "PHOTZP" =
        some (HVal.num (round3 (-1 * bestc.2 +
          (if fltr = "R" then 21 / 100 else 0)))) ∧
      ∀ k, k ≠ "PHOTZP" → k ≠ "LAMB(um)" → k ≠ "PHOTSYS" → k ≠ "FLUXZPJY" →
        headerGet (update_header fltr bestc f).hdr k = headerGet f.hdr k := by
  refine ⟨rfl, ?_, ?_⟩
  · by_cases hf : fltr = "R"
    · simp only [update_header, hf, eq_self_iff_true, if_true]
      rw [headerGet_headerSet_ne _ _ _ _ (by decide),
        headerGet_headerSet_ne _ _ _ _ (by decide),
        headerGet_headerSet_ne _ _ _ _ (by decide),
        headerGet_headerSet_self]
    · simp only [update_header, if_neg hf]
      rw [headerGet_headerSet_ne _ _ _ _ (by decide),
        headerGet_headerSet_ne _ _ _ _ (by decide),
        headerGet_headerSet_self]
      norm_num
  · intro k h1 h2 h3 h4
    by_cases hf : fltr = "R"
    · simp only [update_header, hf, eq_self_iff_true, if_true]
      rw [headerGet_headerSet_ne _ _ _ _ h4, headerGet_headerSet_ne _ _ _ _ h3,
        headerGet_headerSet_ne _ _ _ _ h2, headerGet_headerSet_ne _ _ _ _ h1]
    · simp only [update_header, if_neg hf]
      rw [headerGet_headerSet_ne _ _ _ _ h4, headerGet_headerSet_ne _ _ _ _ h3,
        headerGet_headerSet_ne _ _ _ _ h1]

/-- Concrete image file for the C4 witness. -/
def fileW : FitsFile :=
  { data := [[1, 2], [3, 4]], hdr := [("EXPTIME", HVal.num 60), ("ID", HVal.str "g1")] }

/-- Witness for C4 at a concrete file, filter `'R'`, intercept `-25`:
`PHOTZP = round3(25 + 0.21) = 25.21`, data and `EXPTIME` unchanged. -/
theorem update_header_frame_witness :
    (update_header "R" (1, -25) fileW).data = fileW.data ∧
      headerGet (update_header "R" (1, -25) fileW).hdr "PHOTZP" =
        some (HVal.num (round3 (-1 * ((1 : ℚ), (-25 : ℚ)).2 +
          (if ("R" : String) = "R" then 21 / 100 else 0)))) ∧
      headerGet (update_header "R" (1, -25) fileW).hdr "EXPTIME" =
        headerGet fileW.hdr "EXPTIME" :=
  ⟨(update_header_frame "R" (1, -25) fileW).1,
    (update_header_frame "R" (1, -25) fileW).2.1,
    (update_header_frame "R" (1, -25) fileW).2.2 "EXPTIME" (by decide) (by decide)
      (by decide) (by decide)⟩

/-! ## Part 4: cached cutout downloads (plot_cutouts_ha.get_legacy_images) -/

/-- Contents of a downloaded file, as far as the code inspects them: a jpeg,
a readable FITS cutout with the mean of its band-1 plane, or a file that
`fits.getdata` cannot read (raising `IndexError`). -/
inductive Content where
  | jpegC
  | fitsGood (mean1 : ℚ)
  | fitsBad
deriving DecidableEq, Repr

/-- The local file system: a list of (path, content) entries. -/
abbrev FS := List (String × Content)

/-- Model of `os.path.exists`. -/
def fsExists (fs : FS) (p : String) : Bool := fs.any fun e => e.1 == p

/-- Read a file (first entry with that path). -/
def fsGet : FS → String → Option Content
  | [], _ => none
  | e :: rest, p => if e.1 = p then some e.2 else fsGet rest p

/-- Create a file. -/
def fsPut (fs : FS) (p : String) (c : Content) : FS := fs ++ [(p, c)]

/-- One observable network download (`urlretrieve(url, path)`). -/
inductive Ev where
  | dl (url : String) (path : String)
deriving DecidableEq, Repr

/-- The file-existence-check-as-cache idiom of plot_cutouts_ha.py
(lines 60-71): download only when the target file does not exist.
`remote` models the network: the content served for each URL. -/
def fetchIfMissing (remote : String → Content) (url path : String) (fs : FS) :
    FS × List Ev :=
  if fsExists fs path then (fs, [])
  else (fsPut fs path (remote url), [Ev.dl url path])

/-- Python `int()` on a nonnegative size: truncation toward zero. -/
def ratTrunc (q : ℚ) : Int := if 0 ≤ q then ⌊q⌋ else -⌊-q⌋

/-- Model of `rootname = 'cutouts/'+str(galid)+'-legacy-'+str(imsize)`. -/
def legacyRootName (galid : String) (n : Int) : String :=
  "cutouts/" ++ galid ++ "-legacy-" ++ toString n

/-- Model of `jpeg_name = rootname+'.jpg'`. -/
def legacyJpegName (galid : String) (n : Int) : String :=
  legacyRootName galid n ++ ".jpg"

/-- Model of `fits_name = rootname+'-'+bands+'.fits'`. -/
def legacyFitsName (galid : String) (n : Int) (bands : String) : String :=
  legacyRootName galid n ++ "-" ++ bands ++ ".fits"

/-- The jpeg cutout URL (plot_cutouts_ha.py line 62). -/
def legacyJpegUrl (ra dec : ℚ) (n : Int) (pixscale : ℚ) : String :=
  "http://legacysurvey.org/viewer/jpeg-cutout?ra=" ++ toString ra ++
    "&dec=" ++ toString dec ++ "&layer=dr8&size=" ++ toString n ++
    "&pixscale=" ++ toString pixscale

/-- The FITS cutout URL (plot_cutouts_ha.py line 68). -/
def legacyFitsUrl (ra dec : ℚ) (n : Int) (pixscale : ℚ) (bands : String) : String :=
  "http://legacysurvey.org/viewer/cutout.fits?ra=" ++ toString ra ++
    "&dec=" ++ toString dec ++ "&layer=dr8&size=" ++ toString n ++
    "&pixscale=" ++ toString pixscale ++ "&bands=" ++ bands

/-- Result of `get_legacy_images`: the returned pair of file names, the
`return None` path (band-1 mean equal to 0), or a crash (the `IndexError`
handler itself fails on the undefined name `ra1`, and any other exception
propagates). -/
inductive LegacyRes where
  | names (fitsName jpegName : String)
  | noneRes
  | crash
deriving DecidableEq, Repr

/-- Model of `get_legacy_images` (plot_cutouts_ha.py lines 34-97): build the cutout
file names from `galid`, `imsize` and `bands`; download the jpeg and the
FITS file only if missing; read the FITS file back and return the names
(or `None` when the band-1 mean is 0). -/
def get_legacy_images (remote : String → Content) (ra dec : ℚ) (galid : String)
    (pixscale : ℚ) (imsize : ℚ) (bands : String) (fs : FS) :
    FS × List Ev × LegacyRes :=
  let n := ratTrunc imsize
  let jpegName := legacyJpegName galid n
  let fitsName := legacyFitsName galid n bands
  let r1 := fetchIfMissing remote (legacyJpegUrl ra dec n pixscale) jpegName fs
  let r2 := fetchIfMissing remote (legacyFitsUrl ra dec n pixscale bands) fitsName r1.1
  let res :=
    match fsGet r2.1 fitsName with
    | some (Content.fitsGood m) =>
        if m = 0 then LegacyRes.noneRes else LegacyRes.names fitsName jpegName
    | _ => LegacyRes.crash
  (r2.1, r1.2 ++ r2.2, res)

theorem fsExists_fsPut_self (fs : FS) (p : String) (c : Content) :
    fsExists (fsPut fs p c) p = true := by
  simp [fsExists, fsPut]

theorem fsExists_fsPut_mono (fs : FS) (p q : String) (c : Content)
    (h : fsExists fs q = true) : fsExists (fsPut fs p c) q = true := by
  simp only [fsExists, fsPut, List.any_append]
  simp only [fsExists] at h
  simp [h]

theorem fetchIfMissing_exists_after (remote : String → Content)
    (url path : String) (fs : FS) :
    fsExists (fetchIfMissing remote url path fs).1 path = true := by
  by_cases h : fsExists fs path = true
  · simp [fetchIfMissing, h]
  · simp only [fetchIfMissing]
    rw [if_neg h]
    exact fsExists_fsPut_self fs path (remote url)

theorem fetchIfMissing_mono (remote : String → Content) (url path q : String)
    (fs : FS) (h : fsExists fs q = true) :
    fsExists (fetchIfMissing remote url path fs).1 q = true := by
  by_cases hp : fsExists fs path = true
  · simpa [fetchIfMissing, hp] using h
  · simp only [fetchIfMissing]
    rw [if_neg hp]
    exact fsExists_fsPut_mono fs path q (remote url) h

theorem fetchIfMissing_of_exists (remote : String → Content) (url path : String)
    (fs : FS) (h : fsExists fs path = true) :
    fetchIfMissing remote url path fs = (fs, []) := by
  simp [fetchIfMissing, h]

/-- The two cache file names of one `get_legacy_images` call differ. -/
theorem legacyJpegName_ne_fitsName (galid : String) (n : Int) (bands : String) :
    legacyJpegName galid n ≠ legacyFitsName galid n bands := by
  intro h
  have hd := congrArg String.data h
  simp only [legacyJpegName, legacyFitsName, String.data_append,
    List.append_assoc] at hd
  have h2 := List.append_cancel_left hd
  have h3 := congrArg (fun l => l.headD ' ') h2
  simp at h3

theorem fetchIfMissing_event_path (remote : String → Content)
    (url path u q : String) (fs : FS)
    (h : Ev.dl u q ∈ (fetchIfMissing remote url path fs).2) : q = path := by
  by_cases hp : fsExists fs path = true
  · simp [fetchIfMissing, hp] at h
  · simp only [fetchIfMissing] at h
    rw [if_neg hp] at h
    simp only [List.mem_singleton, Ev.dl.injEq] at h
    exact h.2

/-- The cached-call equation: when both target files already exist, a call
performs no download, leaves the file system unchanged, and its return value
is computed from the cached FITS content. -/
theorem get_legacy_images_cached (remote : String → Content) (ra dec : ℚ)
    (galid : String) (pixscale imsize : ℚ) (bands : String) (fs : FS)
    (hj : fsExists fs (legacyJpegName galid (ratTrunc imsize)) = true)
    (hf : fsExists fs (legacyFitsName galid (ratTrunc imsize) bands) = true) :
    get_legacy_images remote ra dec galid pixscale imsize bands fs =
      (fs, [],
        match fsGet fs (legacyFitsName galid (ratTrunc imsize) bands) with
        | some (Content.fitsGood m) =>
            if m = 0 then LegacyRes.noneRes
            else LegacyRes.names (legacyFitsName galid (ratTrunc imsize) bands)
              (legacyJpegName galid (ratTrunc imsize))
        | _ => LegacyRes.crash) := by
  simp only [get_legacy_images]
  rw [fetchIfMissing_of_exists _ _ _ _ hj]
  rw [fetchIfMissing_of_exists _ _ _ _ hf]
  rfl

/-- Both target files exist after any call. -/
theorem get_legacy_images_exists_after (remote : String → Content) (ra dec : ℚ)
    (galid : String) (pixscale imsize : ℚ) (bands : String) (fs : FS) :
    fsExists (get_legacy_images remote ra dec galid pixscale imsize bands fs).1
        (legacyJpegName galid (ratTrunc imsize)) = true ∧
      fsExists (get_legacy_images remote ra dec galid pixscale imsize bands fs).1
        (legacyFitsName galid (ratTrunc imsize) bands) = true := by
  constructor
  · exact fetchIfMissing_mono _ _ _ _ _
      (fetchIfMissing_exists_after remote _ _ fs)
  · exact fetchIfMissing_exists_after remote _ _ _

/-- C5. The file-existence check is a cache: if a target file of
`get_legacy_images` already exists, no download is performed for that file;
and a second call with the same arguments on the file system left by a first
call downloads nothing, leaves the file system unchanged, and returns the
same value as the first call. -/
theorem get_legacy_images_cache_idempotent (remote : String → Content)
    (ra dec : ℚ) (galid : String) (pixscale imsize : ℚ) (bands : String)
    (fs : FS) :
    (get_legacy_images remote ra dec galid pixscale imsize bands
        (get_legacy_images remote ra dec galid pixscale imsize bands fs).1).2.1
        = [] ∧
      (get_legacy_images remote ra dec galid pixscale imsize bands
        (get_legacy_images remote ra dec galid pixscale imsize bands fs).1).2.2
        = (get_legacy_images remote ra dec galid pixscale imsize bands fs).2.2 ∧
      (get_legacy_images remote ra dec galid pixscale imsize bands
        (get_legacy_images remote ra dec galid pixscale imsize bands fs).1).1
        = (get_legacy_images remote ra dec galid pixscale imsize bands fs).1 ∧
      (fsExists fs (legacyJpegName galid (ratTrunc imsize)) = true →
        ∀ u, Ev.dl u (legacyJpegName galid (ratTrunc imsize)) ∉
          (get_legacy_images remote ra dec galid pixscale imsize bands fs).2.1) ∧
      (fsExists fs (legacyFitsName galid (ratTrunc imsize) bands) = true →
        ∀ u, Ev.dl u (legacyFitsName galid (ratTrunc imsize) bands) ∉
          (get_legacy_images remote ra dec galid pixscale imsize bands fs).2.1) := by
  have hafter := get_legacy_images_exists_after remote ra dec galid pixscale
    imsize bands fs
  have hcached := get_legacy_images_cached remote ra dec galid pixscale imsize
    bands _ hafter.1 hafter.2
  refine ⟨?_, ?_, ?_, ?_, ?_⟩
  · rw [hcached]
  · rw [hcached]
    simp only [get_legacy_images]
  · rw [hcached]
  · intro hj u hmem
    simp only [get_legacy_images] at hmem
    rw [fetchIfMissing_of_exists _ _ _ _ hj] at hmem
    simp only [List.nil_append] at hmem
    have := fetchIfMissing_event_path _ _ _ _ _ _ hmem
    exact legacyJpegName_ne_fitsName galid (ratTrunc imsize) bands this
  · intro hf u hmem
    simp only [get_legacy_images] at hmem
    have hf1 : fsExists (fetchIfMissing remote
        (legacyJpegUrl ra dec (ratTrunc imsize) pixscale)
        (legacyJpegName galid (ratTrunc imsize)) fs).1
        (legacyFitsName galid (ratTrunc imsize) bands) = true :=
      fetchIfMissing_mono _ _ _ _ _ hf
    rw [fetchIfMissing_of_exists _ _ _ _ hf1] at hmem
    simp only [List.append_nil] at hmem
    have := fetchIfMissing_event_path _ _ _ _ _ _ hmem
    exact legacyJpegName_ne_fitsName galid (ratTrunc imsize) bands this.symm

/-- Concrete network for the C5 witness: every URL serves a readable FITS
cutout with nonzero band-1 mean. -/
def remoteW : String → Content := fun _ => Content.fitsGood 1

/-- Concrete file system for the C5 witness: the jpeg cutout for galaxy
`g1` at size 60 is already cached. -/
def fsW : FS := [(legacyJpegName "g1" 60, Content.jpegC)]

/-- Witness for C5 at a concrete input: with the jpeg already on disk, the
call downloads nothing for the jpeg path. -/
theorem get_legacy_images_cache_idempotent_witness :
    fsExists fsW (legacyJpegName "g1" (ratTrunc 60)) = true ∧
      ∀ u, Ev.dl u (legacyJpegName "g1" (ratTrunc 60)) ∉
        (get_legacy_images remoteW 10 10 "g1" 1 60 "g" fsW).2.1 :=
  ⟨by decide,
    (get_legacy_images_cache_idempotent remoteW 10 10 "g1" 1 60 "g"
      fsW).2.2.2.1 (by decide)⟩

/-! ## Part 5: the ZP pipeline (getzp.getzp) -/

/-- The five stages called by `getzp.getzp` (getzp.py lines 122-132). -/
inductive ZPStage where
  | runseS
  | getPanstarrsS
  | matchCoordsS
  | fitzpS
  | updateHeaderS
deriving DecidableEq, Repr

/-- The run configuration of getzp.py (command-line arguments and the SE
configuration): instrument, filter, the r-to-R transformation choice, the
aperture subarray length of the SE dtype, the selected aperture column, the
magnitude selector and the clipping width. -/
structure ZPConfig where
  instrument : String
  fltr : String
  useri : Bool
  napers : Nat
  naper : Nat
  mag : Nat
  nsigma : ℚ

/-- The external world of one getzp.py run: the SE catalog the `sex`
subprocess produces for the image, the Vizier Pan-STARRS query as a function
of the field centre and radius, the astropy nearest-neighbour matcher, and
the image file. -/
structure ZPEnv where
  secat : List SERow
  panQuery : ℚ → ℚ → ℚ → List PanRow
  skyMatch : List PanRow → List SERow → List (Nat × ℚ)
  image : FitsFile

/-- The attributes the `getzp` object accumulates across the stages. -/
structure ZPState where
  secat : List SERow
  centerRA : ℚ
  centerDEC : ℚ
  radius : ℚ
  pan : List PanRow
  matched : MatchOut
  fitResult : FitResult
  image : FitsFile

/-- Object state right after `getzp.__init__`. -/
def initZPState (env : ZPEnv) : ZPState :=
  { secat := [], centerRA := 0, centerDEC := 0, radius := 0, pan := []
    matched := ⟨[], [], [], []⟩, fitResult := FitResult.outOfFuel
    image := env.image }

/-- Model of `min` of a numpy array (defined on nonempty input). -/
def listMin : List ℚ → ℚ
  | [] => 0
  | a :: as => as.foldl min a

/-- Model of `max` of a numpy array (defined on nonempty input). -/
def listMax : List ℚ → ℚ
  | [] => 0
  | a :: as => as.foldl max a

/-- Model of `getzp.runse` (getzp.py lines 133-214): run Source Extractor (external;
its catalog comes from the environment) and compute the field centre and the
search width from the catalog's RA/DEC extremes. -/
def runse_stage (env : ZPEnv) (s : ZPState × List ZPStage) :
    ZPState × List ZPStage :=
  let secat := env.secat
  let minRA := listMin (secat.map SERow.alphaJ2000)
  let maxRA := listMax (secat.map SERow.alphaJ2000)
  let minDEC := listMin (secat.map SERow.deltaJ2000)
  let maxDEC := listMax (secat.map SERow.deltaJ2000)
  ({ s.1 with
      secat := secat
      centerRA := (minRA + maxRA) / 2
      centerDEC := (minDEC + maxDEC) / 2
      radius := max (maxRA - minRA) (maxDEC - minDEC) },
    s.2 ++ [ZPStage.runseS])

/-- Model of `getzp.get_panstarrs` (getzp.py lines 215-221): query the remote
Pan-STARRS catalog over the field. -/
def get_panstarrs_stage (env : ZPEnv) (s : ZPState × List ZPStage) :
    ZPState × List ZPStage :=
  ({ s.1 with pan := env.panQuery s.1.centerRA s.1.centerDEC s.1.radius },
    s.2 ++ [ZPStage.getPanstarrsS])

/-- Model of `getzp.match_coords` as a pipeline stage. -/
def match_coords_stage (env : ZPEnv) (cfg : ZPConfig)
    (s : ZPState × List ZPStage) : ZPState × List ZPStage :=
  ({ s.1 with
      matched := match_coords cfg.instrument cfg.fltr cfg.useri cfg.napers
        s.1.pan s.1.secat (env.skyMatch s.1.pan s.1.secat) },
    s.2 ++ [ZPStage.matchCoordsS])

/-- Magnitude and error columns selected by `--mag`
(getzp.py lines 352-363): 0 = `MAG_APER[:, naper]`, 1 = `MAG_BEST`,
2 = `MAG_PETRO`. -/
def magArrays (mag naper : Nat) (m1 : List SERow) : List ℚ × List ℚ :=
  if mag = 0 then
    (m1.map fun r => r.magAper.getD naper 0,
      m1.map fun r => r.magErrAper.getD naper 0)
  else if mag = 1 then (m1.map SERow.magBest, m1.map SERow.magErrBest)
  else (m1.map SERow.magPetro, m1.map SERow.magErrPetro)

/-- Zip the masked arrays into fit points. -/
def zip3Points (x y e : List ℚ) : List Point :=
  (x.zip (y.zip e)).map fun t => ⟨t.1, t.2.1, t.2.2⟩

/-- The dataset entering the fit loop (getzp.py lines 349-363):
`x = self.R[flag]`, `y`/`yerr` the selected magnitude columns masked by
`fitflag`. -/
def fitzpPoints (cfg : ZPConfig) (mo : MatchOut) : List Point :=
  zip3Points (boolIndex mo.rExpected mo.fitflag)
    (boolIndex (magArrays cfg.mag cfg.naper mo.matchedarray1).1 mo.fitflag)
    (boolIndex (magArrays cfg.mag cfg.naper mo.matchedarray1).2 mo.fitflag)

/-- Model of `getzp.fitzp` as a pipeline stage. -/
def fitzp_stage (cfg : ZPConfig) (s : ZPState × List ZPStage) :
    ZPState × List ZPStage :=
  ({ s.1 with fitResult := fitzp cfg.nsigma (fitzpPoints cfg s.1.matched) },
    s.2 ++ [ZPStage.fitzpS])

/-- Model of `self.bestc` as read by `update_header`. -/
def bestcOfResult : FitResult → ℚ × ℚ
  | .ok o => o.bestc
  | .exited e => e.bestc
  | .outOfFuel => (0, 0)

/-- Model of `getzp.update_header` as a pipeline stage. -/
def update_header_stage (cfg : ZPConfig) (s : ZPState × List ZPStage) :
    ZPState × List ZPStage :=
  ({ s.1 with
      image := update_header cfg.fltr (bestcOfResult s.1.fitResult) s.1.image },
    s.2 ++ [ZPStage.updateHeaderS])

/-- Model of `getzp.getzp` (getzp.py lines 122-132): the five stages in sequence.
When `fitzp` aborts via `sys.exit()` the raised `SystemExit` propagates, so
`update_header` is never reached; the run ends without a result. -/
def getzp_getzp (env : ZPEnv) (cfg : ZPConfig) : Option ZPState × List ZPStage :=
  let s4 := fitzp_stage cfg (match_coords_stage env cfg
    (get_panstarrs_stage env (runse_stage env (initZPState env, []))))
  match s4.1.fitResult with
  | FitResult.ok _ =>
      (some (update_header_stage cfg s4).1, (update_header_stage cfg s4).2)
  | _ => (none, s4.2)

/-- The first four stages always run once each, in order. -/
theorem getzp_trace4 (env : ZPEnv) (cfg : ZPConfig) :
    (fitzp_stage cfg (match_coords_stage env cfg
      (get_panstarrs_stage env (runse_stage env (initZPState env, []))))).2 =
      [ZPStage.runseS, ZPStage.getPanstarrsS, ZPStage.matchCoordsS,
        ZPStage.fitzpS] := by
  simp [fitzp_stage, match_coords_stage, get_panstarrs_stage, runse_stage]

/-- Unfolding equation for one iteration of the fit loop. -/
theorem fitzpLoop_succ (nsigma : ℚ) (fuel : Nat) (bestc : ℚ × ℚ)
    (ps : List Point) :
    fitzpLoop nsigma (fuel + 1) bestc ps =
      if countTrue (clipFlags nsigma (curveFitZp ps) ps) < 2 then
        FitResult.exited
          { x := ps.map Point.x
            y := ps.map Point.y
            residual := ps.map (residOf (curveFitZp ps))
            bestc := (1, curveFitZp ps) }
      else if |bestc.2 - curveFitZp ps| ≤ 1 / 1000 then
        FitResult.ok
          { x := (keptOf nsigma (curveFitZp ps) ps).map Point.x
            y := (keptOf nsigma (curveFitZp ps) ps).map Point.y
            yerr := (keptOf nsigma (curveFitZp ps) ps).map Point.yerr
            residual := ps.map (residOf (curveFitZp ps))
            bestc := (1, curveFitZp ps)
            zp := curveFitZp ps }
      else
        fitzpLoop nsigma fuel (1, curveFitZp ps)
          (keptOf nsigma (curveFitZp ps) ps) := rfl

/-- C3 (amended). `getzp.getzp` runs `runse`, `get_panstarrs`,
`match_coords` and `fitzp` exactly once each, in that order, with no stage
repeated or retried; `update_header` then runs exactly once when the fit
completes normally, but is skipped when `fitzp` aborts the process via
`sys.exit` (fewer than 2 points retained by the MAD clip). -/
theorem getzp_pipeline_order (env : ZPEnv) (cfg : ZPConfig) :
    ((getzp_getzp env cfg).1.isSome = true →
        (getzp_getzp env cfg).2 = [ZPStage.runseS, ZPStage.getPanstarrsS,
          ZPStage.matchCoordsS, ZPStage.fitzpS, ZPStage.updateHeaderS]) ∧
      ((getzp_getzp env cfg).1.isSome = false →
        (getzp_getzp env cfg).2 = [ZPStage.runseS, ZPStage.getPanstarrsS,
          ZPStage.matchCoordsS, ZPStage.fitzpS]) := by
  have h4 := getzp_trace4 env cfg
  simp only [getzp_getzp]
  rcases hfr : (fitzp_stage cfg (match_coords_stage env cfg
      (get_panstarrs_stage env (runse_stage env
        (initZPState env, []))))).1.fitResult with o | e
  · constructor
    · intro _
      simp only [update_header_stage]
      rw [h4]
      rfl
    · intro hcontra
      simp at hcontra
  · constructor
    · intro hcontra
      simp at hcontra
    · intro _
      exact h4
  · constructor
    · intro hcontra
      simp at hcontra
    · intro _
      exact h4

/-- Evaluation of the fit loop on the perfectly fitting two-star dataset:
it aborts in the first iteration. -/
theorem psExitW_fitzp :
    fitzp 2 psExitW =
      FitResult.exited
        { x := [10, 11], y := [12, 13], residual := [0, 0], bestc := (1, 2) } := by
  rw [fitzp, show fitzpFuel psExitW = 3 + 1 from rfl, fitzpLoop_succ]
  norm_num [psExitW, curveFitZp, clipFlags, residOf, median, sortQ, insSorted,
    countTrue]

/-- SE catalog of the aborting run: two stars, both star-like, unflagged. -/
def secatExitW : List SERow :=
  [⟨10, 10, 0, 1, 0, 0, 12, 1 / 10, [12], [1], 12, 1 / 10, 12, 1 / 10⟩,
    ⟨10 + 1 / 1000, 10, 0, 1, 0, 0, 13, 1 / 10, [13], [1], 13, 1 / 10, 13, 1 / 10⟩]

/-- Pan-STARRS catalog of the aborting run. -/
def panExitW : List PanRow :=
  [⟨10, 10, 10, 10, 10, 0⟩, ⟨10 + 1 / 1000, 10, 11, 11, 11, 0⟩]

/-- Environment of the aborting run: both stars match perfectly within
5 arcsec and pass every quality cut. -/
def envExitW : ZPEnv :=
  { secat := secatExitW
    panQuery := fun _ _ _ => panExitW
    skyMatch := fun _ _ => [(0, 0), (1, 0)]
    image := fileW }

/-- Configuration used in the concrete pipeline runs. -/
def cfgW : ZPConfig :=
  { instrument := "h", fltr := "r", useri := false, napers := 1, naper := 0
    mag := 0, nsigma := 2 }

/-- The dataset the aborting run feeds to the fit loop. -/
theorem envExitW_points :
    fitzpPoints cfgW (match_coords cfgW.instrument cfgW.fltr cfgW.useri
      cfgW.napers panExitW secatExitW [(0, 0), (1, 0)]) = psExitW := by
  norm_num [fitzpPoints, match_coords, matchflagOf, matchedRows, fitflagOf,
    rExpectedOf, magArrays, zip3Points, boolIndex, zeroSERow, goodareaOf,
    cfgW, panExitW, secatExitW, psExitW,
    (show ("h" : String) ≠ "i" from by decide),
    (show ("r" : String) ≠ "R" from by decide)]

/-- Counterexample to C3 as stated: on this concrete run the fit loop hits
the `sum(flag) < 2` branch and the process aborts via `sys.exit`, so
`update_header` is skipped — the claim that no stage is ever skipped on any
run is false. -/
theorem getzp_pipeline_counterexample :
    (getzp_getzp envExitW cfgW).2 =
        [ZPStage.runseS, ZPStage.getPanstarrsS, ZPStage.matchCoordsS,
          ZPStage.fitzpS] ∧
      ZPStage.updateHeaderS ∉ (getzp_getzp envExitW cfgW).2 := by
  have hpoints : (fitzp_stage cfgW (match_coords_stage envExitW cfgW
      (get_panstarrs_stage envExitW (runse_stage envExitW
        (initZPState envExitW, []))))).1.fitResult =
      FitResult.exited
        { x := [10, 11], y := [12, 13], residual := [0, 0], bestc := (1, 2) } := by
    simp only [fitzp_stage, match_coords_stage, get_panstarrs_stage,
      runse_stage, initZPState, envExitW]
    rw [envExitW_points]
    exact psExitW_fitzp
  constructor
  · simp only [getzp_getzp, hpoints]
    exact getzp_trace4 envExitW cfgW
  · simp only [getzp_getzp, hpoints]
    rw [getzp_trace4 envExitW cfgW]
    decide

/-- A dataset on which the first fit already has intercept 0, the clipping
mask keeps every point, and the loop converges normally. -/
def psOkW : List Point := [⟨10, 101 / 10, 1⟩, ⟨11, 109 / 10, 1⟩, ⟨12, 12, 1⟩]

/-- Evaluation of the fit loop on `psOkW`: normal convergence in one
iteration with all three points retained. -/
theorem psOkW_fitzp :
    fitzp 2 psOkW =
      FitResult.ok
        { x := [10, 11, 12], y := [101 / 10, 109 / 10, 12], yerr := [1, 1, 1]
          residual := [-1 / 10, 1 / 10, 0], bestc := (1, 0), zp := 0 } := by
  rw [fitzp, show fitzpFuel psOkW = 4 + 1 from rfl, fitzpLoop_succ]
  norm_num [psOkW, curveFitZp, clipFlags, residOf, median, sortQ, insSorted,
    countTrue, keptOf, boolIndex,
    (show |(1 : ℚ) / 10| = 1 / 10 from abs_of_nonneg (by norm_num)),
    (show |(-1 : ℚ) / 10| = 1 / 10 from by rw [abs_div]; norm_num)]

/-- SE catalog of the converging run. -/
def secatOkW : List SERow :=
  [⟨10, 10, 0, 1, 0, 0, 12, 1 / 10, [101 / 10], [1], 12, 1 / 10, 12, 1 / 10⟩,
    ⟨10 + 1 / 1000, 10, 0, 1, 0, 0, 13, 1 / 10, [109 / 10], [1], 13, 1 / 10, 13,
      1 / 10⟩,
    ⟨10 + 2 / 1000, 10, 0, 1, 0, 0, 14, 1 / 10, [12], [1], 14, 1 / 10, 14,
      1 / 10⟩]

/-- Pan-STARRS catalog of the converging run. -/
def panOkW : List PanRow :=
  [⟨10, 10, 10, 10, 10, 0⟩, ⟨10 + 1 / 1000, 10, 11, 11, 11, 0⟩,
    ⟨10 + 2 / 1000, 10, 12, 12, 12, 0⟩]

/-- Environment of the converging run. -/
def envOkW : ZPEnv :=
  { secat := secatOkW
    panQuery := fun _ _ _ => panOkW
    skyMatch := fun _ _ => [(0, 0), (1, 0), (2, 0)]
    image := fileW }

/-- The dataset the converging run feeds to the fit loop. -/
theorem envOkW_points :
    fitzpPoints cfgW (match_coords cfgW.instrument cfgW.fltr cfgW.useri
      cfgW.napers panOkW secatOkW [(0, 0), (1, 0), (2, 0)]) = psOkW := by
  norm_num [fitzpPoints, match_coords, matchflagOf, matchedRows, fitflagOf,
    rExpectedOf, magArrays, zip3Points, boolIndex, zeroSERow, goodareaOf,
    cfgW, panOkW, secatOkW, psOkW,
    (show ("h" : String) ≠ "i" from by decide),
    (show ("r" : String) ≠ "R" from by decide)]

/-- Witness for C3 (amended) at a concrete converging run: the fit completes
normally and all five stages run in order. -/
theorem getzp_pipeline_order_witness :
    (getzp_getzp envOkW cfgW).1.isSome = true ∧
      (getzp_getzp envOkW cfgW).2 =
        [ZPStage.runseS, ZPStage.getPanstarrsS, ZPStage.matchCoordsS,
          ZPStage.fitzpS, ZPStage.updateHeaderS] := by
  have hfr : (fitzp_stage cfgW (match_coords_stage envOkW cfgW
      (get_panstarrs_stage envOkW (runse_stage envOkW
        (initZPState envOkW, []))))).1.fitResult =
      FitResult.ok
        { x := [10, 11, 12], y := [101 / 10, 109 / 10, 12], yerr := [1, 1, 1]
          residual := [-1 / 10, 1 / 10, 0], bestc := (1, 0), zp := 0 } := by
    simp only [fitzp_stage, match_coords_stage, get_panstarrs_stage,
      runse_stage, initZPState, envOkW]
    rw [envOkW_points]
    exact psOkW_fitzp
  refine ⟨?_, (getzp_pipeline_order envOkW cfgW).1 ?_⟩ <;>
    simp only [getzp_getzp, hfr, Option.isSome_some]

/-! ## Part 6: the cutout tool (plot_cutouts_ha.cutouts) -/

/-- Does `sub` occur at the head of `s`? -/
def leadMatch : List Char → List Char → Bool
  | [], _ => true
  | _ :: _, [] => false
  | a :: as, b :: bs => a == b && leadMatch as bs

/-- Does `sub` occur anywhere in `s`? -/
def hasSub (sub : List Char) : List Char → Bool
  | [] => leadMatch sub []
  | c :: rest => leadMatch sub (c :: rest) || hasSub sub rest

/-- Python `s.find(sub) > -1`: substring containment. -/
def strFind (s sub : String) : Bool := hasSub sub.toList s.toList

/-- Characters of `s` before the first occurrence of `sub`. -/
def splitHead (sub : List Char) : List Char → List Char
  | [] => []
  | c :: rest => if leadMatch sub (c :: rest) then [] else c :: splitHead sub rest

/-- Python `s.split(sep)[0]`: the prefix of `s` before the first occurrence
of `sep` (the whole string when `sep` is absent). -/
def pySplitHead (s sep : String) : String := String.mk (splitHead sep.toList s.toList)

/-- Model of `cutouts.__init__` (plot_cutouts_ha.py lines 220-231): the split marker
`split_string` is assigned only under the `find` tests on `'_R'`, `'-R'` and
`'-r'` (the second `if`/`elif` overwrites the first assignment); when none
of the three markers occurs, the `.split(split_string)` call raises
`UnboundLocalError`.  Returns the computed `rootname` on success. -/
def cutouts_init (rimage : String) : Except String String :=
  let ss1 : Option String := if strFind rimage "_R" then some "_R.fits" else none
  let ss2 : Option String :=
    if strFind rimage "-R" then some "-R.fits"
    else if strFind rimage "-r" then some "_r.fits"
    else ss1
  match ss2 with
  | none => Except.error "UnboundLocalError"
  | some s => Except.ok (pySplitHead rimage s)

/-- C10. `cutouts.__init__` is partial on its filename argument: it raises
(the unassigned local `split_string`) exactly when the R-band filename
contains none of the substrings `'_R'`, `'-R'` and `'-r'`; a `cutouts`
object is constructible precisely when one of the markers occurs. -/
theorem cutouts_init_partial (rimage : String) :
    cutouts_init rimage = Except.error "UnboundLocalError" ↔
      (strFind rimage "_R" = false ∧ strFind rimage "-R" = false ∧
        strFind rimage "-r" = false) := by
  simp only [cutouts_init]
  cases h2 : strFind rimage "-R" <;> cases h3 : strFind rimage "-r" <;>
    cases h1 : strFind rimage "_R" <;> simp [h1, h2, h3]

/-- The stages of `cutouts.runall` (plot_cutouts_ha.py lines 233-243), with
the three Legacy-band fetches of `download_legacy` kept separate. -/
inductive CutStage where
  | readHalphaS
  | imageSizeS
  | radecS
  | galidS
  | fetchLegacyS (bands : String)
  | loadLegacyS
  | fetchUnwiseS
  | loadUnwiseS
  | fetchGalexS
  | plotAllS
deriving DecidableEq, Repr

/-- Model of `pixelscale` of the Legacy cutout service (plot_cutouts_ha.py line 32). -/
def LEGACY_PIXSCALE : ℚ := 1

/-- Model of `pixelscale` of the unWISE cutout service (plot_cutouts_ha.py line 31). -/
def UNWISE_PIXSCALE : ℚ := 11 / 4

/-- The external world of one cutout run: the local FITS products (shape,
WCS solution, header fields), the network, the file system, and the results
of the unWISE and GALEX services. -/
structure CutEnv where
  shape : Nat × Nat
  cd1_1 : ℚ
  galid : String
  remote : String → Content
  fs : FS
  wcsPix2World : ℚ → ℚ → ℚ × ℚ
  unwiseFetch : ℚ → ℚ → ℚ → String → List String × Bool

/-- The attributes the `cutouts` object accumulates across `runall`. -/
structure CutState where
  ra : ℚ := 0
  dec : ℚ := 0
  xsizePix : Nat := 0
  ysizePix : Nat := 0
  pscale : ℚ := 0
  xsizeArcsec : ℚ := 0
  ysizeArcsec : ℚ := 0
  galid : String := ""
  legacyImsize : ℚ := 0
  legacyFilenameG : String := ""
  legacyFilenameR : String := ""
  legacyFilenameZ : String := ""
  legacyJpegname : String := ""
  wiseImsize : ℚ := 0
  wiseFilenames : List String := []
  wiseMultiframe : Bool := false
  fs : FS := []

/-- Model of `cutouts.get_halpha_cutouts`: read the local R, Hα and
continuum-subtracted FITS products (external reads; no tracked fields). -/
def get_halpha_stage (s : CutState × List CutStage) : CutState × List CutStage :=
  (s.1, s.2 ++ [CutStage.readHalphaS])

/-- Model of `cutouts.get_image_size` (lines 248-253). -/
def get_image_size_stage (env : CutEnv) (s : CutState × List CutStage) :
    CutState × List CutStage :=
  ({ s.1 with
      xsizePix := env.shape.1
      ysizePix := env.shape.2
      pscale := |env.cd1_1|
      xsizeArcsec := (env.shape.1 : ℚ) * |env.cd1_1| * 3600
      ysizeArcsec := (env.shape.2 : ℚ) * |env.cd1_1| * 3600 },
    s.2 ++ [CutStage.imageSizeS])

/-- Model of `cutouts.get_RADEC` (lines 254-257). -/
def get_RADEC_stage (env : CutEnv) (s : CutState × List CutStage) :
    CutState × List CutStage :=
  ({ s.1 with
      ra := (env.wcsPix2World ((s.1.xsizePix : ℚ) / 2) ((s.1.ysizePix : ℚ) / 2)).1
      dec :=
        (env.wcsPix2World ((s.1.xsizePix : ℚ) / 2) ((s.1.ysizePix : ℚ) / 2)).2 },
    s.2 ++ [CutStage.radecS])

/-- Model of `cutouts.get_galid` (lines 258-259): `self.galid = self.header['ID']`. -/
def get_galid_stage (env : CutEnv) (s : CutState × List CutStage) :
    CutState × List CutStage :=
  ({ s.1 with galid := env.galid }, s.2 ++ [CutStage.galidS])

/-- The tuple unpacking `self.legacy_filename_b, self.legacy_jpegname =
get_legacy_images(...)` (plot_cutouts_ha.py lines 265-267): it succeeds only
on a `(fits_name, jpeg_name)` pair.  When `get_legacy_images` returns `None`
(band-1 mean 0, lines 87-88) the unpacking raises `TypeError`, and when the
call itself raised, that exception propagates; either way the run aborts. -/
def unpackLegacy : LegacyRes → Option (String × String)
  | LegacyRes.names f j => some (f, j)
  | _ => none

/-- The first (g-band) `get_legacy_images` call of `cutouts.download_legacy`
(plot_cutouts_ha.py line 265). -/
def legacyCallG (env : CutEnv) (st : CutState) : FS × List Ev × LegacyRes :=
  get_legacy_images env.remote st.ra st.dec st.galid 1
    (st.xsizeArcsec / LEGACY_PIXSCALE) "g" st.fs

/-- The second (r-band) call (line 266), on the file system left by the
g-band call. -/
def legacyCallR (env : CutEnv) (st : CutState) : FS × List Ev × LegacyRes :=
  get_legacy_images env.remote st.ra st.dec st.galid 1
    (st.xsizeArcsec / LEGACY_PIXSCALE) "r" (legacyCallG env st).1

/-- The third (z-band) call (line 267), on the file system left by the
r-band call. -/
def legacyCallZ (env : CutEnv) (st : CutState) : FS × List Ev × LegacyRes :=
  get_legacy_images env.remote st.ra st.dec st.galid 1
    (st.xsizeArcsec / LEGACY_PIXSCALE) "z" (legacyCallR env st).1

/-- Model of `cutouts.download_legacy` (lines 261-267): fetch the g, r and z
Legacy cutouts in that order through `get_legacy_images`, threading the
cached file system.  Each fetch is followed by the tuple unpacking of its
result; a `None` return or a propagated exception aborts the method there
(`Except.error` carries the stage trace up to and including the failing
fetch), so later bands are not fetched. -/
def download_legacy_stage (env : CutEnv) (s : CutState × List CutStage) :
    Except (List CutStage) (CutState × List CutStage) :=
  match unpackLegacy (legacyCallG env s.1).2.2 with
  | none => Except.error (s.2 ++ [CutStage.fetchLegacyS "g"])
  | some pg =>
    match unpackLegacy (legacyCallR env s.1).2.2 with
    | none =>
        Except.error (s.2 ++ [CutStage.fetchLegacyS "g", CutStage.fetchLegacyS "r"])
    | some pr =>
      match unpackLegacy (legacyCallZ env s.1).2.2 with
      | none =>
          Except.error (s.2 ++ [CutStage.fetchLegacyS "g",
            CutStage.fetchLegacyS "r", CutStage.fetchLegacyS "z"])
      | some pz =>
          Except.ok
            ({ s.1 with
                legacyImsize := s.1.xsizeArcsec / LEGACY_PIXSCALE
                legacyFilenameG := pg.1
                legacyFilenameR := pr.1
                legacyFilenameZ := pz.1
                legacyJpegname := pz.2
                fs := (legacyCallZ env s.1).1 },
              s.2 ++ [CutStage.fetchLegacyS "g", CutStage.fetchLegacyS "r",
                CutStage.fetchLegacyS "z"])

/-- Model of `cutouts.load_legacy_images` (lines 269-272): local FITS reads. -/
def load_legacy_stage (s : CutState × List CutStage) : CutState × List CutStage :=
  (s.1, s.2 ++ [CutStage.loadLegacyS])

/-- Model of `cutouts.download_unwise_images` (lines 273-286). -/
def download_unwise_stage (env : CutEnv) (s : CutState × List CutStage) :
    CutState × List CutStage :=
  let ims := s.1.xsizeArcsec / UNWISE_PIXSCALE
  let res := env.unwiseFetch s.1.ra s.1.dec ims "1234"
  ({ s.1 with wiseImsize := ims, wiseFilenames := res.1, wiseMultiframe := res.2 },
    s.2 ++ [CutStage.fetchUnwiseS])

/-- Model of `cutouts.load_unwise_images` (lines 288-299): local FITS reads. -/
def load_unwise_stage (s : CutState × List CutStage) : CutState × List CutStage :=
  (s.1, s.2 ++ [CutStage.loadUnwiseS])

/-- Model of `cutouts.get_galex_image` (lines 300-308): read the cached GALEX cutout
or download and cache it. -/
def get_galex_stage (s : CutState × List CutStage) : CutState × List CutStage :=
  (s.1, s.2 ++ [CutStage.fetchGalexS])

/-- Model of `cutouts.plotallcutouts` (lines 326-369): composite the grid figure. -/
def plotall_stage (s : CutState × List CutStage) : CutState × List CutStage :=
  (s.1, s.2 ++ [CutStage.plotAllS])

/-- Model of `cutouts.runall` (plot_cutouts_ha.py lines 233-243): the ten
method calls in sequence.  When `download_legacy` aborts (a Legacy call
returned `None`, or crashed), the exception propagates out of `runall`, so
`load_legacy_images`, the unWISE and GALEX stages and `plotallcutouts` never
run; the result is `none` and the trace stops at the failing fetch. -/
def runall (env : CutEnv) : Option CutState × List CutStage :=
  match download_legacy_stage env (get_galid_stage env (get_RADEC_stage env
    (get_image_size_stage env (get_halpha_stage ({ fs := env.fs }, []))))) with
  | Except.error tr => (none, tr)
  | Except.ok s5 =>
      ( some (plotall_stage (get_galex_stage (load_unwise_stage
          (download_unwise_stage env (load_legacy_stage s5))))).1,
        (plotall_stage (get_galex_stage (load_unwise_stage
          (download_unwise_stage env (load_legacy_stage s5))))).2 )

/-- The first four stages of `runall` always run once each, in order. -/
theorem cut_trace4 (env : CutEnv) :
    (get_galid_stage env (get_RADEC_stage env (get_image_size_stage env
      (get_halpha_stage ({ fs := env.fs }, []))))).2 =
      [CutStage.readHalphaS, CutStage.imageSizeS, CutStage.radecS,
        CutStage.galidS] := by
  simp [get_galid_stage, get_RADEC_stage, get_image_size_stage,
    get_halpha_stage]

/-- Over any state, `download_legacy` either succeeds and appends the three
Legacy fetches to the trace, or aborts right after the failing fetch. -/
theorem download_legacy_stage_cases (env : CutEnv) (s : CutState × List CutStage) :
    (∃ s2, download_legacy_stage env s = Except.ok s2 ∧
        s2.2 = s.2 ++ [CutStage.fetchLegacyS "g", CutStage.fetchLegacyS "r",
          CutStage.fetchLegacyS "z"]) ∨
      (∃ tr, download_legacy_stage env s = Except.error tr ∧
        (tr = s.2 ++ [CutStage.fetchLegacyS "g"] ∨
          tr = s.2 ++ [CutStage.fetchLegacyS "g", CutStage.fetchLegacyS "r"] ∨
          tr = s.2 ++ [CutStage.fetchLegacyS "g", CutStage.fetchLegacyS "r",
            CutStage.fetchLegacyS "z"])) := by
  rcases hg : unpackLegacy (legacyCallG env s.1).2.2 with _ | pg
  · exact Or.inr ⟨_, by simp only [download_legacy_stage, hg], Or.inl rfl⟩
  · rcases hr : unpackLegacy (legacyCallR env s.1).2.2 with _ | pr
    · exact Or.inr ⟨_, by simp only [download_legacy_stage, hg, hr],
        Or.inr (Or.inl rfl)⟩
    · rcases hz : unpackLegacy (legacyCallZ env s.1).2.2 with _ | pz
      · exact Or.inr ⟨_, by simp only [download_legacy_stage, hg, hr, hz],
          Or.inr (Or.inr rfl)⟩
      · have hd : download_legacy_stage env s =
            Except.ok
              ({ s.1 with
                  legacyImsize := s.1.xsizeArcsec / LEGACY_PIXSCALE
                  legacyFilenameG := pg.1
                  legacyFilenameR := pr.1
                  legacyFilenameZ := pz.1
                  legacyJpegname := pz.2
                  fs := (legacyCallZ env s.1).1 },
                s.2 ++ [CutStage.fetchLegacyS "g", CutStage.fetchLegacyS "r",
                  CutStage.fetchLegacyS "z"]) := by
          simp only [download_legacy_stage, hg, hr, hz]
        exact Or.inl ⟨_, hd, rfl⟩

/-- C8 (amended). Every run of `cutouts.runall` first reads the local FITS
products, derives the image size and sky position, then fetches cutouts from
the three external services — Legacy Survey (bands g, r, z in that order),
then unWISE, then GALEX — and finally composites the grid figure with
`plotallcutouts`, provided each `get_legacy_images` call returns a file-name
pair.  When a Legacy call returns `None` (blank cutout) or fails, the tuple
unpacking in `download_legacy` raises `TypeError` and every later stage —
the remaining Legacy fetches, unWISE, GALEX and `plotallcutouts` — is
skipped. -/
theorem runall_stage_order (env : CutEnv) :
    ((runall env).1.isSome = true →
        (runall env).2 =
          [CutStage.readHalphaS, CutStage.imageSizeS, CutStage.radecS,
            CutStage.galidS, CutStage.fetchLegacyS "g",
            CutStage.fetchLegacyS "r", CutStage.fetchLegacyS "z",
            CutStage.loadLegacyS, CutStage.fetchUnwiseS, CutStage.loadUnwiseS,
            CutStage.fetchGalexS, CutStage.plotAllS]) ∧
      ((runall env).1.isSome = false →
        CutStage.plotAllS ∉ (runall env).2 ∧
          ((runall env).2 =
              [CutStage.readHalphaS, CutStage.imageSizeS, CutStage.radecS,
                CutStage.galidS, CutStage.fetchLegacyS "g"] ∨
            (runall env).2 =
              [CutStage.readHalphaS, CutStage.imageSizeS, CutStage.radecS,
                CutStage.galidS, CutStage.fetchLegacyS "g",
                CutStage.fetchLegacyS "r"] ∨
            (runall env).2 =
              [CutStage.readHalphaS, CutStage.imageSizeS, CutStage.radecS,
                CutStage.galidS, CutStage.fetchLegacyS "g",
                CutStage.fetchLegacyS "r", CutStage.fetchLegacyS "z"])) := by
  have h4 := cut_trace4 env
  rcases download_legacy_stage_cases env (get_galid_stage env
      (get_RADEC_stage env (get_image_size_stage env
        (get_halpha_stage ({ fs := env.fs }, []))))) with
    ⟨s2, hok, htr⟩ | ⟨tr, herr, htr⟩
  · constructor
    · intro _
      simp only [runall, hok]
      simp [plotall_stage, get_galex_stage, load_unwise_stage,
        download_unwise_stage, load_legacy_stage, htr, h4]
    · intro hc
      simp only [runall, hok] at hc
      simp at hc
  · constructor
    · intro hc
      simp only [runall, herr] at hc
      simp at hc
    · intro _
      simp only [runall, herr]
      rw [h4] at htr
      rcases htr with h | h | h <;> rw [h]
      · exact ⟨by decide, Or.inl rfl⟩
      · exact ⟨by decide, Or.inr (Or.inl rfl)⟩
      · exact ⟨by decide, Or.inr (Or.inr rfl)⟩

/-- File system of the aborting cutout run: the g-band cutout is cached but
blank — its band-1 mean is 0, the case in which `get_legacy_images` returns
`None` (plot_cutouts_ha.py lines 87-88). -/
def fsCutW : FS :=
  [(legacyJpegName "g1" 7200, Content.jpegC),
    (legacyFitsName "g1" 7200 "g", Content.fitsGood 0)]

/-- Environment of the aborting cutout run: a 2x2-pixel R image with a
1-degree pixel scale, so the cutout size is 7200 arcsec. -/
def envCutW : CutEnv :=
  { shape := (2, 2), cd1_1 := 1, galid := "g1"
    remote := fun _ => Content.fitsGood 0
    fs := fsCutW
    wcsPix2World := fun _ _ => (10, 10)
    unwiseFetch := fun _ _ _ _ => ([], false) }

/-- Object state after the first four stages of the aborting run. -/
def stCutW : CutState :=
  { ra := 10, dec := 10, xsizePix := 2, ysizePix := 2, pscale := 1
    xsizeArcsec := 7200, ysizeArcsec := 7200, galid := "g1", fs := fsCutW }

/-- In the aborting run, the g-band Legacy call returns `None`: the cached
cutout is read back with band-1 mean 0. -/
theorem stCutW_legacyG : (legacyCallG envCutW stCutW).2.2 = LegacyRes.noneRes := by
  have hn : ratTrunc (stCutW.xsizeArcsec / LEGACY_PIXSCALE) = 7200 := by
    norm_num [stCutW, ratTrunc, LEGACY_PIXSCALE]
  rw [legacyCallG, get_legacy_images_cached _ _ _ _ _ _ _ _
    (by rw [hn]; decide) (by rw [hn]; decide)]
  rw [hn]
  simp only [stCutW]
  rw [show fsGet fsCutW (legacyFitsName "g1" 7200 "g") =
    some (Content.fitsGood 0) from by decide]
  norm_num

/-- Counterexample to C8 as stated: on this concrete run the blank g-band
cutout makes `get_legacy_images` return `None`, the tuple unpacking in
`download_legacy` raises `TypeError`, and the run stops right after the
g-band fetch — `plotallcutouts` (and everything after the failing fetch)
never executes, so the final grid figure is not composited on every run. -/
theorem runall_abort_counterexample :
    (runall envCutW).2 =
        [CutStage.readHalphaS, CutStage.imageSizeS, CutStage.radecS,
          CutStage.galidS, CutStage.fetchLegacyS "g"] ∧
      CutStage.plotAllS ∉ (runall envCutW).2 := by
  have hst : (get_galid_stage envCutW (get_RADEC_stage envCutW
      (get_image_size_stage envCutW (get_halpha_stage
        ({ fs := envCutW.fs }, []))))).1 = stCutW := by
    norm_num [get_galid_stage, get_RADEC_stage, get_image_size_stage,
      get_halpha_stage, envCutW, stCutW]
  have hu : unpackLegacy (legacyCallG envCutW (get_galid_stage envCutW
      (get_RADEC_stage envCutW (get_image_size_stage envCutW
        (get_halpha_stage ({ fs := envCutW.fs }, []))))).1).2.2 = none := by
    rw [hst, stCutW_legacyG]
    rfl
  have hdl : download_legacy_stage envCutW (get_galid_stage envCutW
      (get_RADEC_stage envCutW (get_image_size_stage envCutW
        (get_halpha_stage ({ fs := envCutW.fs }, []))))) =
      Except.error [CutStage.readHalphaS, CutStage.imageSizeS,
        CutStage.radecS, CutStage.galidS, CutStage.fetchLegacyS "g"] := by
    simp only [download_legacy_stage, hu, cut_trace4 envCutW]
    rfl
  refine ⟨?_, ?_⟩ <;> simp only [runall, hdl]
  decide

/-- File system of the successful cutout run: the jpeg and all three band
cutouts are cached with nonzero band-1 means. -/
def fsCutOkW : FS :=
  [(legacyJpegName "g1" 7200, Content.jpegC),
    (legacyFitsName "g1" 7200 "g", Content.fitsGood 1),
    (legacyFitsName "g1" 7200 "r", Content.fitsGood 1),
    (legacyFitsName "g1" 7200 "z", Content.fitsGood 1)]

/-- Environment of the successful cutout run. -/
def envCutOkW : CutEnv :=
  { shape := (2, 2), cd1_1 := 1, galid := "g1"
    remote := fun _ => Content.fitsGood 1
    fs := fsCutOkW
    wcsPix2World := fun _ _ => (10, 10)
    unwiseFetch := fun _ _ _ _ => ([], false) }

/-- Object state after the first four stages of the successful run. -/
def stCutOkW : CutState :=
  { ra := 10, dec := 10, xsizePix := 2, ysizePix := 2, pscale := 1
    xsizeArcsec := 7200, ysizeArcsec := 7200, galid := "g1", fs := fsCutOkW }

/-- In the successful run, the g-band call returns its file-name pair and
leaves the file system unchanged. -/
theorem stCutOkW_legacyG :
    legacyCallG envCutOkW stCutOkW =
      (fsCutOkW, [], LegacyRes.names (legacyFitsName "g1" 7200 "g")
        (legacyJpegName "g1" 7200)) := by
  have hn : ratTrunc (stCutOkW.xsizeArcsec / LEGACY_PIXSCALE) = 7200 := by
    norm_num [stCutOkW, ratTrunc, LEGACY_PIXSCALE]
  rw [legacyCallG, get_legacy_images_cached _ _ _ _ _ _ _ _
    (by rw [hn]; decide) (by rw [hn]; decide)]
  rw [hn]
  simp only [stCutOkW]
  rw [show fsGet fsCutOkW (legacyFitsName "g1" 7200 "g") =
    some (Content.fitsGood 1) from by decide]
  norm_num

/-- In the successful run, the r-band call returns its file-name pair. -/
theorem stCutOkW_legacyR :
    legacyCallR envCutOkW stCutOkW =
      (fsCutOkW, [], LegacyRes.names (legacyFitsName "g1" 7200 "r")
        (legacyJpegName "g1" 7200)) := by
  have hn : ratTrunc (stCutOkW.xsizeArcsec / LEGACY_PIXSCALE) = 7200 := by
    norm_num [stCutOkW, ratTrunc, LEGACY_PIXSCALE]
  have h1 : legacyCallR envCutOkW stCutOkW =
      get_legacy_images envCutOkW.remote stCutOkW.ra stCutOkW.dec stCutOkW.galid
        1 (stCutOkW.xsizeArcsec / LEGACY_PIXSCALE) "r" fsCutOkW := by
    rw [legacyCallR, stCutOkW_legacyG]
  rw [h1, get_legacy_images_cached _ _ _ _ _ _ _ _
    (by rw [hn]; decide) (by rw [hn]; decide)]
  rw [hn]
  simp only [stCutOkW]
  rw [show fsGet fsCutOkW (legacyFitsName "g1" 7200 "r") =
    some (Content.fitsGood 1) from by decide]
  norm_num

/-- In the successful run, the z-band call returns its file-name pair. -/
theorem stCutOkW_legacyZ :
    legacyCallZ envCutOkW stCutOkW =
      (fsCutOkW, [], LegacyRes.names (legacyFitsName "g1" 7200 "z")
        (legacyJpegName "g1" 7200)) := by
  have hn : ratTrunc (stCutOkW.xsizeArcsec / LEGACY_PIXSCALE) = 7200 := by
    norm_num [stCutOkW, ratTrunc, LEGACY_PIXSCALE]
  have h1 : legacyCallZ envCutOkW stCutOkW =
      get_legacy_images envCutOkW.remote stCutOkW.ra stCutOkW.dec stCutOkW.galid
        1 (stCutOkW.xsizeArcsec / LEGACY_PIXSCALE) "z" fsCutOkW := by
    rw [legacyCallZ, stCutOkW_legacyR]
  rw [h1, get_legacy_images_cached _ _ _ _ _ _ _ _
    (by rw [hn]; decide) (by rw [hn]; decide)]
  rw [hn]
  simp only [stCutOkW]
  rw [show fsGet fsCutOkW (legacyFitsName "g1" 7200 "z") =
    some (Content.fitsGood 1) from by decide]
  norm_num

/-- Witness for C8 (amended) at a concrete run on which all three Legacy
calls return file-name pairs: the run completes and all twelve stages run in
order. -/
theorem runall_stage_order_witness :
    (runall envCutOkW).1.isSome = true ∧
      (runall envCutOkW).2 =
        [CutStage.readHalphaS, CutStage.imageSizeS, CutStage.radecS,
          CutStage.galidS, CutStage.fetchLegacyS "g", CutStage.fetchLegacyS "r",
          CutStage.fetchLegacyS "z", CutStage.loadLegacyS,
          CutStage.fetchUnwiseS, CutStage.loadUnwiseS, CutStage.fetchGalexS,
          CutStage.plotAllS] := by
  have hst : (get_galid_stage envCutOkW (get_RADEC_stage envCutOkW
      (get_image_size_stage envCutOkW (get_halpha_stage
        ({ fs := envCutOkW.fs }, []))))).1 = stCutOkW := by
    norm_num [get_galid_stage, get_RADEC_stage, get_image_size_stage,
      get_halpha_stage, envCutOkW, stCutOkW]
  have hG : unpackLegacy (legacyCallG envCutOkW (get_galid_stage envCutOkW
      (get_RADEC_stage envCutOkW (get_image_size_stage envCutOkW
        (get_halpha_stage ({ fs := envCutOkW.fs }, []))))).1).2.2 =
      some (legacyFitsName "g1" 7200 "g", legacyJpegName "g1" 7200) := by
    rw [hst, stCutOkW_legacyG]
    rfl
  have hR : unpackLegacy (legacyCallR envCutOkW (get_galid_stage envCutOkW
      (get_RADEC_stage envCutOkW (get_image_size_stage envCutOkW
        (get_halpha_stage ({ fs := envCutOkW.fs }, []))))).1).2.2 =
      some (legacyFitsName "g1" 7200 "r", legacyJpegName "g1" 7200) := by
    rw [hst, stCutOkW_legacyR]
    rfl
  have hZ : unpackLegacy (legacyCallZ envCutOkW (get_galid_stage envCutOkW
      (get_RADEC_stage envCutOkW (get_image_size_stage envCutOkW
        (get_halpha_stage ({ fs := envCutOkW.fs }, []))))).1).2.2 =
      some (legacyFitsName "g1" 7200 "z", legacyJpegName "g1" 7200) := by
    rw [hst, stCutOkW_legacyZ]
    rfl
  have hsome : (runall envCutOkW).1.isSome = true := by
    rcases download_legacy_stage_cases envCutOkW (get_galid_stage envCutOkW
        (get_RADEC_stage envCutOkW (get_image_size_stage envCutOkW
          (get_halpha_stage ({ fs := envCutOkW.fs }, []))))) with
      ⟨s2, hok, _⟩ | ⟨tr, herr, _⟩
    · simp [runall, hok]
    · simp only [download_legacy_stage, hG, hR, hZ] at herr
      exact Except.noConfusion herr
  exact ⟨hsome, (runall_stage_order envCutOkW).1 hsome⟩

end HalphaImaging
